import Mathlib

set_option autoImplicit false

namespace Butterfly

/-! Shallow embedding of the butterfly request-validation and storage core.

Source files embedded here:
  - src/bfly/CoreLayer/AccessLayer/QueryLayer/Query.py  (Query checks, update_source, raise_error)
  - src/butterfly/AccessLayer/API.py                    (API parse, group resolution, typecasts, _except)
  - src/bfly/CoreLayer/DatabaseLayer/Unqlite.py         (add_path, get_path, add_entry)
  - src/_butterfly/webserver.py                         (WebServer.handle)
Python dicts are embedded as association lists with first-match lookup;
numpy uint32 casts are embedded as explicit arithmetic modulo 2 ^ 32. -/

/-! ## Query.py error machinery

Query.raise_error raises URLError([status, 503, detail]) where detail maps the
RUNTIME.ERROR keys CHECK, TERM and OUT to the failure description, the failed
property name and the failed property value. -/

/-- Structured detail carried by every validation failure: the rule
description (check), the failed property name (term) and the failed property
value (out), as built in Query.check_any. -/
structure ErrorDetail where
  check : String
  term : String
  out : String
deriving Repr, DecidableEq

/-- Payload of the URLError raised by Query.raise_error: the log template
name, the numeric code and the structured detail. -/
structure URLErrorData where
  status : String
  code : Nat
  detail : ErrorDetail
deriving Repr, DecidableEq

/-- Embedding of Query.raise_error: builds URLError([status, 503, detail]).
The numeric code is the literal 503 at the raise site. -/
def raise_error (status : String) (detail : ErrorDetail) : URLErrorData :=
  { status := status, code := 503, detail := detail }

/-- Embedding of Query.check_any: when the tested condition fails, raise via
raise_error with the CHECK template carrying message, value and term. -/
def check_any (is_good : Bool) (message : String) (value : String) (term : String) :
    Except URLErrorData Unit :=
  if is_good then .ok ()
  else .error (raise_error "CHECK" { check := message, term := term, out := value })

/-- Python str() of an optional string, as applied to keyword values that may
be missing: str(None) is the text None. -/
def pyStr (v : Option String) : String :=
  match v with
  | none => "None"
  | some s => s

/-- Rendering of a list of strings, used by check_list to format the
whitelist into the failure message (string quoting elided). -/
def pyReprList (l : List String) : String :=
  "[" ++ String.intercalate ", " l ++ "]"

/-- Embedding of Query.check_list: membership of the (possibly missing)
keyword value in the whitelist; a missing value is never a member. -/
def check_list (whitelist : List String) (value : Option String) (term : String) :
    Except URLErrorData Unit :=
  let in_list : Bool :=
    match value with
    | none => false
    | some s => whitelist.contains s
  check_any in_list ("in " ++ pyReprList whitelist) (pyStr value) term

/-- Python str() of an optional list of naturals, for check_length messages. -/
def pyStrVec (v : Option (List Nat)) : String :=
  match v with
  | none => "None"
  | some l => "[" ++ String.intercalate ", " (l.map toString) ++ "]"

/-- Embedding of Query.check_length: first checks the value has a length
(is a list at all), then that the length equals the requested one. -/
def check_length (length : Nat) (value : Option (List Nat)) (term : String) :
    Except URLErrorData Unit := do
  check_any value.isSome "a list or array" (pyStrVec value) term
  check_any ((value.getD []).length == length) ("of length " ++ toString length)
    (pyStrVec value) term

/-! ## Query.update_source -/

/-- Keyword arguments consumed by Query.update_source: the datasource name,
the numpy dtype name, the tile block size, the full volume size, and the two
optional HDF5 path fields. Missing dict keys are embedded as none. -/
structure SourceKeywords where
  source : Option String
  dtype : Option String
  block : Option (List Nat)
  size : Option (List Nat)
  inner : Option String
  outer : Option String

/-- Clean values set by a successful Query.update_source run: the validated
source and type, the uint32-cast block, the z/y/x size dict, and the HDF5
fields (kept at their defaults when the keywords lack them). -/
structure SourceUpdate where
  source : Option String
  dtype : Option String
  block : List Nat
  size_z : Nat
  size_y : Nat
  size_x : Nat
  inner : String
  outer : String
deriving Repr, DecidableEq

/-- Numpy uint32 cast of one component: arithmetic modulo 2 ^ 32. -/
def npUint32 (n : Nat) : Nat := n % 2 ^ 32

/-- Embedding of Query.update_source. Checks run in source order: source
membership, type membership, block length, full-size length, then the
cross-field bound np.all(np.uint32(block) <= full_size). On success the
clean cast values are set. SOURCE_LIST and TYPE_LIST are the whitelists from
the RUNTIME and OUTPUT structs; inner0 and outer0 are the prior VALUE
defaults of the optional HDF5 fields. -/
def update_source (SOURCE_LIST TYPE_LIST : List String) (inner0 outer0 : String)
    (kw : SourceKeywords) : Except URLErrorData SourceUpdate := do
  let source_val := kw.source
  let type_val := kw.dtype
  let block := kw.block
  let full_size := (kw.size).getD [0, 0, 0]
  check_list SOURCE_LIST source_val "source"
  check_list TYPE_LIST type_val "type"
  check_length 3 block "blocksize"
  check_length 3 (some full_size) "full size"
  let blockv := block.getD []
  let msg := "bigger than " ++ pyStrVec block
  let within : Bool := ((blockv.map npUint32).zip full_size).all (fun p => p.1 ≤ p.2)
  check_any within msg (pyStrVec (some full_size)) "full size"
  .ok { source := source_val
        dtype := type_val
        block := blockv.map npUint32
        size_z := full_size.getD 0 0
        size_y := full_size.getD 1 0
        size_x := full_size.getD 2 0
        inner := kw.inner.getD inner0
        outer := kw.outer.getD outer0 }

/-! ## API.py

API._except raises HTTPError(uri, 400, message, [], None); the message is
rendered by the RequestHandler log from the check kwargs. The log renderer is
not part of the analyzed sources, so the error is embedded as the structured
kwargs themselves together with the literal numeric code 400. -/

/-- Payload of the HTTPError raised by API._except for the check action:
the numeric code (the literal 400 at the raise site), the rule description
passed as the check kwarg, the field name passed as the term kwarg, and the
attempted value stored into the val kwarg. -/
structure APIError where
  code : Nat
  check : String
  term : String
  val : String
deriving Repr, DecidableEq

/-- Embedding of API._except in the check case: kwargs gain val := result and
an HTTPError with code 400 is raised carrying the rendered kwargs. -/
def api_except (result : String) (check : String) (term : String) : APIError :=
  { code := 400, check := check, term := term, val := result }

/-- Embedding of API._match_condition composed with API._match_list: returns
the value when it is in the list and raises through API._except otherwise,
with the check kwarg listing the allowed values and the term kwarg naming the
field. -/
def match_list (name : String) (v : String) (vlist : List String) :
    Except APIError String :=
  if vlist.contains v then .ok v
  else .error (api_except v ("one of [" ++ String.intercalate ", " vlist ++ "]") name)

/-- Whitespace characters stripped by Python int parsing. -/
def pyWhitespace (c : Char) : Bool :=
  c == ' ' || c == '\t' || c == '\n' || c == '\r'

/-- Strip surrounding whitespace from a character list. -/
def pyTrim (cs : List Char) : List Char :=
  ((cs.dropWhile pyWhitespace).reverse.dropWhile pyWhitespace).reverse

/-- Value of a nonempty run of decimal digits, none otherwise. -/
def digitsToNat : List Char → Option Nat
  | cs =>
    if cs ≠ [] ∧ cs.all Char.isDigit then
      some (cs.foldl (fun a c => a * 10 + (c.toNat - 48)) 0)
    else none

/-- Parse of a Python int literal as applied by numpy to a string: optional
surrounding whitespace, an optional sign, then a nonempty digit run. -/
def pyParseInt (s : String) : Option Int :=
  match pyTrim s.toList with
  | [] => none
  | c :: rest =>
    if c == '-' then (digitsToNat rest).map (fun n => -(n : Int))
    else if c == '+' then (digitsToNat rest).map (fun n => (n : Int))
    else (digitsToNat (c :: rest)).map (fun n => (n : Int))

/-- Numpy uint32 constructor applied to a string: parse as a Python int, then
cast with wraparound modulo 2 ^ 32; a string that does not parse as an int
raises (embedded as none). -/
def npUint32OfString (s : String) : Option Nat :=
  (pyParseInt s).map (fun z => (z % (2 ^ 32 : Int)).toNat)

/-- Embedding of API._try_typecast_int via API._try_condition: applies
np.uint32 to the raw value and raises through API._except with the check
kwarg a number when the cast raises. -/
def try_typecast_int (qparam : String) (result : String) : Except APIError Nat :=
  match npUint32OfString result with
  | some n => .ok n
  | none => .error (api_except result "a number" qparam)

/-- Embedding of tornado get_query_argument with a default: the parameter
value when present, the default otherwise. -/
def get_query_argument (params : String → Option String) (name : String)
    (default : String) : String :=
  (params name).getD default

/-- Embedding of API._get_int_query: reads the query argument with the field
default and typecasts it to an integer. -/
def get_int_query (params : String → Option String) (qname : String)
    (qdefault : String) : Except APIError Nat :=
  try_typecast_int qname (get_query_argument params qname qdefault)

/-- Embedding of API._get_list_query: reads the query argument with the field
default and matches it against the field list. -/
def get_list_query (params : String → Option String) (qname : String)
    (qdefault : String) (qlist : List String) : Except APIError String :=
  match_list qname (get_query_argument params qname qdefault) qlist

/-! ## API.parse dispatch -/

/-- Dispatch outcome of API.parse: the handler selected for a whitelisted
method. The literal text returned when a whitelisted method is in none of
the dispatch lists is the unsupported category constant. -/
inductive ParseResult where
  | metaInfo
  | featureInfo
  | group (method : String)
  | data (method : String)
  | unsupportedCategory
deriving Repr, DecidableEq

/-- Embedding of API.parse: match the request against the method whitelist
(failing through API._except when absent), then dispatch on the command. -/
def parse (METHODS_LIST : List String) (META_NAME FEAT_NAME : String)
    (GROUP_LIST IMAGE_LIST : List String) (request : String) :
    Except APIError ParseResult := do
  let command ← match_list "method" request METHODS_LIST
  if command = META_NAME then .ok .metaInfo
  else if command = FEAT_NAME then .ok .featureInfo
  else if GROUP_LIST.contains command then .ok (.group command)
  else if IMAGE_LIST.contains command then .ok (.data command)
  else .ok .unsupportedCategory

/-! ## Group resolution (API._find_all_groups, API._get_group_dict)

The BFLY_CONFIG tree is a nested structure of Python dicts: each level is a
dict that maps a method name to a list of group dicts, and each group dict
carries a name attribute plus the nested lists for deeper levels. -/

/-- One node of the group configuration tree: its scalar attributes (for
groups, the name key read by API.get_value) and, per method name, the list
of child group nodes. -/
inductive ConfigNode where
  | node (attrs : List (String × String)) (groups : List (String × List ConfigNode))

/-- Scalar attributes of a configuration node. -/
def ConfigNode.attrs : ConfigNode → List (String × String)
  | .node a _ => a

/-- Child group lists of a configuration node, keyed by method name. -/
def ConfigNode.groups : ConfigNode → List (String × List ConfigNode)
  | .node _ g => g

/-- Embedding of configured.get(method, []): the child groups configured
under a method name, an empty list when the key is absent. -/
def ConfigNode.getGroups (c : ConfigNode) (method : String) : List ConfigNode :=
  (c.groups.lookup method).getD []

/-- Embedding of API.get_value: g.get(GROUP_NAME, empty string), where
GROUP_NAME is the name attribute key from INPUT.GROUP.NAME. -/
def get_value (GROUP_NAME : String) (g : ConfigNode) : String :=
  (g.attrs.lookup GROUP_NAME).getD ""

/-- Embedding of API._find_all_groups: when the method is one of the group
methods, zip the method and query lists truncated strictly before its index;
otherwise zip the full lists. -/
def find_all_groups (group_methods group_queries : List String) (method : String) :
    List (String × String) :=
  match group_methods.indexOf? method with
  | some i => (group_methods.take i).zip (group_queries.take i)
  | none => group_methods.zip group_queries

/-- Python list.index semantics: the first index at which the value occurs
(only ever applied after a membership check, as in the source). -/
def pyIndex : List String → String → Nat
  | [], _ => 0
  | x :: xs, v => if x = v then 0 else pyIndex xs v + 1

/-- Loop body of API._get_group_dict over the zipped method and query names:
at each level read the groups configured under the method, read the query
parameter (empty string when absent), fail through API._match_list when the
value is not one of the group names, and otherwise descend into the group at
the first index whose name equals the value. -/
def get_group_dict_loop (GROUP_NAME : String) (params : String → Option String) :
    List (String × String) → ConfigNode → Except APIError ConfigNode
  | [], configured => .ok configured
  | (method, query) :: rest, configured =>
    let valid_groups := configured.getGroups method
    let valid_values := valid_groups.map (get_value GROUP_NAME)
    let query_value := get_query_argument params query ""
    match match_list query query_value valid_values with
    | .error e => .error e
    | .ok _ =>
      get_group_dict_loop GROUP_NAME params rest
        ((valid_groups.get? (pyIndex valid_values query_value)).getD (.node [] []))

/-- Embedding of API._get_group_dict: runs the level loop over the groups
found by API._find_all_groups, starting from the full configuration tree. -/
def get_group_dict (group_methods group_queries : List String) (GROUP_NAME : String)
    (config : ConfigNode) (params : String → Option String) (method : String) :
    Except APIError ConfigNode :=
  get_group_dict_loop GROUP_NAME params
    (find_all_groups group_methods group_queries method) config

/-! ## Unqlite.py database adapter

The unqlite key/value namespace is embedded as an association list updated in
place; a collection is embedded as the list of its records, where the __id of
a record is its position (store appends, update replaces at an id). A record
is a Python dict embedded as an association list with first-match lookup. -/

/-- A metadata record: a Python dict from field names to field values. -/
abbrev Record := List (String × String)

/-- The top-level unqlite key/value namespace used by add_path/get_path. -/
abbrev KVStore := List (String × String)

/-- Python dict style assignment into the key/value store: overwrite the
binding when the key exists, append it otherwise. -/
def kv_set : KVStore → String → String → KVStore
  | [], k, v => [(k, v)]
  | (k0, v0) :: rest, k, v =>
    if k0 = k then (k, v) :: rest else (k0, v0) :: kv_set rest k v

/-- Embedding of Unqlite.add_path: db[c_path] = d_path. -/
def add_path (db : KVStore) (c_path d_path : String) : KVStore :=
  kv_set db c_path d_path

/-- Embedding of Unqlite.get_path: db[path] when path is a key of db, and
path itself otherwise. -/
def get_path (db : KVStore) (path : String) : String :=
  (db.lookup path).getD path

/-- Natural-key lookup dict built by Unqlite.add_entry, as the Python dict
comprehension over the KEY_LIST of the table: none embeds the KeyError raised
when the entry lacks one of the key fields. -/
def build_find_entry : List String → Record → Option (List (String × String))
  | [], _ => some []
  | k :: rest, entry =>
    match entry.lookup k with
    | none => none
    | some v => (build_find_entry rest entry).map (fun l => (k, v) :: l)

/-- Modelled from the spec: Database.get_entry (base class Database.py is not
among the analyzed sources) searches the collection for records agreeing with
every given natural-key field by exact equality. This predicate tests one
record against the find_entry dict. -/
def matches_find_entry (find_entry : List (String × String)) (r : Record) : Bool :=
  find_entry.all (fun kv => r.lookup kv.1 == some kv.2)

/-- Embedding of Unqlite.add_entry on one collection: build the natural-key
dict from the KEY_LIST of the table (a missing key field raises KeyError,
embedded as none, before any store or update), then update the first record
matching that key in place, or append the entry when none matches. -/
def add_entry (k_table : List String) (collect : List Record) (entry : Record) :
    Option (List Record) :=
  (build_find_entry k_table entry).map (fun find_entry =>
    match collect.findIdx? (matches_find_entry find_entry) with
    | some i => collect.set i entry
    | none => collect ++ [entry])

/-! ## webserver.py

WebServer.handle never calls set_status on the tornado handler, so every
response it writes goes out with the transport default status 200. The
external voxel core self._core.get is a collaborator passed in as a function
that either yields content or raises. -/

/-- Outcome of the external core get call: a volume (abstracted to the bytes
later written), or one of the exception classes the handler catches. -/
inductive CoreResult where
  | volume (bytes : String)
  | keyError
  | typeOrValueError
deriving Repr, DecidableEq

/-- An HTTP response as written by WebServer.handle: numeric status, body
content and content type. -/
structure HttpResponse where
  status : Nat
  content : String
  content_type : String
deriving Repr, DecidableEq

/-- Python int of a comma-separated tuple of ints, as in the start and size
parses of WebServer.handle: none embeds the ValueError raised when any piece
fails to parse. -/
def parseIntTuple (s : String) : Option (List Int) :=
  ((s.splitOn ",").mapM pyParseInt)

/-- Body of the data and zip branches of WebServer.handle: read the datapath,
start, mip and size query parameters (a missing one raises KeyError), parse
the numeric ones (a bad one raises ValueError), call the core, and encode.
The ok content is produced by the encoder argument (png encoding for data,
zlib for zip): both exception handlers write an error body, and the response
always carries status 200 because set_status is never called. -/
def handle_volume_branch (params : String → Option String)
    (core : String → List Int → List Int → Int → CoreResult)
    (encode : String → String) (ok_type : String) : HttpResponse :=
  match params "datapath", params "start", params "mip", params "size" with
  | some datapath, some start_s, some mip_s, some size_s =>
    match parseIntTuple start_s, pyParseInt mip_s, parseIntTuple size_s with
    | some start, some w, some volsize =>
      match core datapath start volsize w with
      | .volume v => { status := 200, content := encode v, content_type := ok_type }
      | .keyError =>
        { status := 200, content := "Error 400: Bad request<br>Missing query"
          content_type := "text/html" }
      | .typeOrValueError =>
        { status := 200, content := "Error 400: Bad request<br>Out of bounds"
          content_type := "text/html" }
    | _, _, _ =>
      { status := 200, content := "Error 400: Bad request<br>Out of bounds"
        content_type := "text/html" }
  | _, _, _, _ =>
    { status := 200, content := "Error 400: Bad request<br>Missing query"
      content_type := "text/html" }

/-- Body and content type written by WebServer.handle: dispatch on the first
path segment of the request uri; the metainfo branch writes a stub body, the
data and zip branches run the volume branch with their encoders, and any
other request (or a falsy content) writes the 404 body. -/
def handle_body (kind : String) (params : String → Option String)
    (core : String → List Int → List Int → Int → CoreResult)
    (png_encode zlib_compress : String → String) : String × String :=
  let content : Option (String × String) :=
    if kind = "metainfo" then some ("metainfo", "text/html")
    else if kind = "data" then
      let r := handle_volume_branch params core png_encode "image/png"
      some (r.content, r.content_type)
    else if kind = "zip" then
      let r := handle_volume_branch params core zlib_compress "application/octet-stream"
      some (r.content, r.content_type)
    else none
  match content with
  | some (c, t) => if c = "" then ("Error 404: Not found", "text/html") else (c, t)
  | none => ("Error 404: Not found", "text/html")

/-- Embedding of WebServer.handle: writes the body computed by handle_body;
because set_status is never called on the tornado handler, the written
response always goes out with the transport default status 200. The encoders
are collaborators passed as functions. -/
def handle (kind : String) (params : String → Option String)
    (core : String → List Int → List Int → Int → CoreResult)
    (png_encode zlib_compress : String → String) : HttpResponse :=
  { status := 200
    content := (handle_body kind params core png_encode zlib_compress).1
    content_type := (handle_body kind params core png_encode zlib_compress).2 }

/-! ## Query construction (Query.__init__ and Query.set_key) -/

/-- State held by a freshly constructed Query: the method value copied into
INPUT.METHODS.VALUE and the keyword dict stored verbatim. -/
structure QueryState where
  methods_value : String
  keywords : List (String × String)
deriving Repr, DecidableEq

/-- Embedding of Query.__init__: reads the method keyword with an empty
default, assigns it to INPUT.METHODS.VALUE, and stores the keyword dict
unchanged; no check of any kind runs here. -/
def Query_init (METHODS_NAME : String) (keywords : List (String × String)) : QueryState :=
  { methods_value := (keywords.lookup METHODS_NAME).getD ""
    keywords := keywords }

/-- A named schema field as used by Query.set_key: its request key NAME and
its current VALUE (the default before set_key runs). The embedded Field
always carries a VALUE slot, so the empty argument of set_key (the fallback
when the struct lacks one) never applies. -/
structure Field where
  NAME : String
  VALUE : String
deriving Repr, DecidableEq

/-- Embedding of Query.set_key: copy the keyword named by the field (keeping
the default VALUE of the field when the keyword is absent) into the field,
with no validation of the copied value. -/
def set_key (keywords : List (String × String)) (field : Field) : Field :=
  { field with VALUE := (keywords.lookup field.NAME).getD field.VALUE }

/-- Modelled from the spec: INPUT.METHODS.LIST from the UtilityLayer Keywords
module, which is not among the analyzed sources. The spec names the method
vocabulary: metadata and feature requests, the hierarchical group methods
(experiment, sample, channel), and the image data and zip methods. -/
def METHODS_LIST : List String :=
  ["meta", "feature", "experiment", "sample", "channel", "data", "zip"]

/-! ## Check sequencing -/

/-- The validation checks run by Query.update_source, in source order, each
as it appears in the body: source membership, type membership, block shape,
full-size shape, then the cross-field bound. -/
def source_checks (SOURCE_LIST TYPE_LIST : List String) (kw : SourceKeywords) :
    List (Except URLErrorData Unit) :=
  let full_size := (kw.size).getD [0, 0, 0]
  let blockv := (kw.block).getD []
  let within : Bool := ((blockv.map npUint32).zip full_size).all (fun p => p.1 ≤ p.2)
  [check_list SOURCE_LIST kw.source "source",
   check_list TYPE_LIST kw.dtype "type",
   check_length 3 kw.block "blocksize",
   check_length 3 (some full_size) "full size",
   check_any within ("bigger than " ++ pyStrVec kw.block) (pyStrVec (some full_size)) "full size"]

/-- First failure in a sequence of check results, none when every check
passes. -/
def firstError : List (Except URLErrorData Unit) → Option URLErrorData
  | [] => none
  | .ok () :: rest => firstError rest
  | .error e :: _ => some e

/-! ## Helper lemmas -/

theorem lookup_kv_set_self (db : KVStore) (k v : String) :
    (kv_set db k v).lookup k = some v := by
  induction db with
  | nil => simp [kv_set, List.lookup]
  | cons hd tl ih =>
    obtain ⟨k0, v0⟩ := hd
    simp only [kv_set]
    split
    · simp [List.lookup]
    · next h =>
      have hne : (k == k0) = false := beq_eq_false_iff_ne.mpr (Ne.symm h)
      simp [List.lookup, hne, ih]

theorem build_find_entry_eq_none (k_table : List String) (entry : Record) (k : String)
    (hk : k ∈ k_table) (h : entry.lookup k = none) :
    build_find_entry k_table entry = none := by
  induction k_table with
  | nil => cases hk
  | cons k0 rest ih =>
    rcases List.mem_cons.mp hk with rfl | hk0
    · simp [build_find_entry, h]
    · cases hl : entry.lookup k0 with
      | none => simp [build_find_entry, hl]
      | some v => simp [build_find_entry, hl, ih hk0]

theorem ok_bind {α β : Type} (a : α) (f : α → Except URLErrorData β) :
    (Except.ok a >>= f) = f a := rfl

theorem error_bind {α β : Type} (e : URLErrorData) (f : α → Except URLErrorData β) :
    ((Except.error e : Except URLErrorData α) >>= f) = Except.error e := rfl

theorem check_list_ok {wl : List String} {s : String} (t : String) (h : s ∈ wl) :
    check_list wl (some s) t = .ok () := by
  have hc : wl.contains s = true := by simpa using h
  simp [check_list, check_any, hc, h]

theorem check_length_ok {l : List Nat} (t : String) (h : l.length = 3) :
    check_length 3 (some l) t = .ok () := by
  simp [check_length, check_any, h]
  rfl

/-- Characterization of Query.update_source as the first failing check of its
ordered check sequence: the result is the error of the first check that
fails, and the clean cast values exactly when every check passes. -/
theorem update_source_eq (SL TL : List String) (i0 o0 : String) (kw : SourceKeywords) :
    update_source SL TL i0 o0 kw =
      match firstError (source_checks SL TL kw) with
      | some e => .error e
      | none =>
        .ok { source := kw.source, dtype := kw.dtype,
              block := ((kw.block).getD []).map npUint32,
              size_z := ((kw.size).getD [0, 0, 0]).getD 0 0,
              size_y := ((kw.size).getD [0, 0, 0]).getD 1 0,
              size_x := ((kw.size).getD [0, 0, 0]).getD 2 0,
              inner := kw.inner.getD i0, outer := kw.outer.getD o0 } := by
  unfold update_source source_checks
  dsimp only
  cases h1 : check_list SL kw.source "source" with
  | error e => rw [error_bind]; simp [firstError]
  | ok u =>
    cases u
    rw [ok_bind]
    cases h2 : check_list TL kw.dtype "type" with
    | error e => rw [error_bind]; simp [firstError]
    | ok u =>
      cases u
      rw [ok_bind]
      cases h3 : check_length 3 kw.block "blocksize" with
      | error e => rw [error_bind]; simp [firstError]
      | ok u =>
        cases u
        rw [ok_bind]
        cases h4 : check_length 3 (some ((kw.size).getD [0, 0, 0])) "full size" with
        | error e => rw [error_bind]; simp [firstError]
        | ok u =>
          cases u
          rw [ok_bind]
          cases h5 : check_any
              (((((kw.block).getD []).map npUint32).zip
                ((kw.size).getD [0, 0, 0])).all (fun p => decide (p.1 ≤ p.2)))
              ("bigger than " ++ pyStrVec kw.block)
              (pyStrVec (some ((kw.size).getD [0, 0, 0]))) "full size" with
          | error e => rw [error_bind]; simp [firstError]
          | ok u =>
            cases u
            rw [ok_bind]
            simp [firstError]

/-! ## C9 -/

/-- C9: validation is fail-fast with a single structured error per attempt:
update_source returns exactly the error of the first failing check of its
ordered check sequence (never collecting several), succeeds when every check
passes, and every check failure is one structured error carrying the rule
description, the failed term name and the attempted value. -/
theorem C9_fail_fast (SL TL : List String) (i0 o0 : String) (kw : SourceKeywords) :
    (∀ e, firstError (source_checks SL TL kw) = some e →
      update_source SL TL i0 o0 kw = .error e) ∧
    (firstError (source_checks SL TL kw) = none →
      ∃ u, update_source SL TL i0 o0 kw = .ok u) ∧
    (∀ (g : Bool) (m v t : String),
      check_any g m v t = .ok () ∨
      check_any g m v t =
        .error { status := "CHECK", code := 503,
                 detail := { check := m, term := t, out := v } }) := by
  refine ⟨?_, ?_, ?_⟩
  · intro e he; rw [update_source_eq, he]
  · intro he; rw [update_source_eq, he]; exact ⟨_, rfl⟩
  · intro g m v t
    cases g
    · right; rfl
    · left; rfl

theorem C9_fail_fast_witness :
    update_source ["hdf5"] ["uint8"] "" ""
      { source := none, dtype := none, block := none, size := none,
        inner := none, outer := none } =
      .error { status := "CHECK", code := 503,
               detail := { check := "in [hdf5]", term := "source", out := "None" } } ∧
    (∃ u, update_source ["hdf5"] ["uint8"] "" ""
      { source := some "hdf5", dtype := some "uint8", block := some [1, 1, 1],
        size := some [2, 2, 2], inner := none, outer := none } = .ok u) := by
  constructor
  · exact (C9_fail_fast ["hdf5"] ["uint8"] "" "" _).1 _ (by rfl)
  · exact (C9_fail_fast ["hdf5"] ["uint8"] "" "" _).2.1 (by rfl)

/-! ## C2 -/

/-- C2: for a data query whose block and full size fields are individually
valid 3-vectors (uint32 components), the cross-field bound check accepts the
query exactly when every block component is at most the matching full-size
component, and a violation in any single component yields the OutOfBounds
failure on the full size term even when the other two are within bounds. -/
theorem C2_out_of_bounds (SL TL : List String) (i0 o0 : String) (kw : SourceKeywords)
    (src ty : String) (b fs : List Nat)
    (hs : kw.source = some src) (hsl : src ∈ SL)
    (ht : kw.dtype = some ty) (htl : ty ∈ TL)
    (hb : kw.block = some b) (hbl : b.length = 3)
    (hfs : kw.size = some fs) (hfl : fs.length = 3)
    (hbv : ∀ x ∈ b, x < 2 ^ 32) :
    ((∃ u, update_source SL TL i0 o0 kw = .ok u) ↔
      ∀ i, i < 3 → b.getD i 0 ≤ fs.getD i 0) ∧
    ((∃ i, i < 3 ∧ fs.getD i 0 < b.getD i 0) →
      update_source SL TL i0 o0 kw =
        .error { status := "CHECK", code := 503,
                 detail := { check := "bigger than " ++ pyStrVec (some b),
                             term := "full size", out := pyStrVec (some fs) } }) := by
  obtain ⟨b0, b1, b2, rfl⟩ := List.length_eq_three.mp hbl
  obtain ⟨f0, f1, f2, rfl⟩ := List.length_eq_three.mp hfl
  have e0 : npUint32 b0 = b0 := Nat.mod_eq_of_lt (hbv b0 (by simp))
  have e1 : npUint32 b1 = b1 := Nat.mod_eq_of_lt (hbv b1 (by simp))
  have e2 : npUint32 b2 = b2 := Nat.mod_eq_of_lt (hbv b2 (by simp))
  have hfe : firstError (source_checks SL TL kw) =
      if b0 ≤ f0 ∧ b1 ≤ f1 ∧ b2 ≤ f2 then none
      else some { status := "CHECK", code := 503,
                  detail := { check := "bigger than " ++ pyStrVec (some [b0, b1, b2]),
                              term := "full size", out := pyStrVec (some [f0, f1, f2]) } } := by
    unfold source_checks
    rw [hs, ht, hb, hfs]
    dsimp only
    simp only [Option.getD_some]
    rw [check_list_ok _ hsl, check_list_ok _ htl,
      check_length_ok (l := [b0, b1, b2]) "blocksize" rfl,
      check_length_ok (l := [f0, f1, f2]) "full size" rfl]
    by_cases hc0 : b0 ≤ f0 <;> by_cases hc1 : b1 ≤ f1 <;> by_cases hc2 : b2 ≤ f2 <;>
      simp [check_any, firstError, raise_error, e0, e1, e2, hc0, hc1, hc2]
  constructor
  · constructor
    · rintro ⟨u, hu⟩ i hi
      rw [update_source_eq, hfe] at hu
      by_cases H : b0 ≤ f0 ∧ b1 ≤ f1 ∧ b2 ≤ f2
      · interval_cases i
        · simpa using H.1
        · simpa using H.2.1
        · simpa using H.2.2
      · rw [if_neg H] at hu
        exact Except.noConfusion hu
    · intro hall
      have H : b0 ≤ f0 ∧ b1 ≤ f1 ∧ b2 ≤ f2 :=
        ⟨by simpa using hall 0 (by norm_num), by simpa using hall 1 (by norm_num),
         by simpa using hall 2 (by norm_num)⟩
      rw [update_source_eq, hfe, if_pos H]
      exact ⟨_, rfl⟩
  · rintro ⟨i, hi, hlt⟩
    have H : ¬(b0 ≤ f0 ∧ b1 ≤ f1 ∧ b2 ≤ f2) := by
      interval_cases i <;> (simp at hlt; omega)
    rw [update_source_eq, hfe, if_neg H]

theorem C2_out_of_bounds_witness :
    update_source ["hdf5"] ["uint8"] "" ""
      { source := some "hdf5", dtype := some "uint8", block := some [9, 1, 1],
        size := some [8, 5, 5], inner := none, outer := none } =
      .error { status := "CHECK", code := 503,
               detail := { check := "bigger than " ++ pyStrVec (some [9, 1, 1]),
                           term := "full size", out := pyStrVec (some [8, 5, 5]) } } ∧
    (∃ u, update_source ["hdf5"] ["uint8"] "" ""
      { source := some "hdf5", dtype := some "uint8", block := some [1, 2, 3],
        size := some [3, 3, 3], inner := none, outer := none } = .ok u) := by
  constructor
  · exact (C2_out_of_bounds ["hdf5"] ["uint8"] "" "" _ "hdf5" "uint8" [9, 1, 1] [8, 5, 5]
      rfl (by simp) rfl (by simp) rfl rfl rfl rfl (by decide)).2
      ⟨0, by norm_num, by simp⟩
  · exact (C2_out_of_bounds ["hdf5"] ["uint8"] "" "" _ "hdf5" "uint8" [1, 2, 3] [3, 3, 3]
      rfl (by simp) rfl (by simp) rfl rfl rfl rfl (by decide)).1.mpr
      (by intro i hi; interval_cases i <;> decide)

/-! ## C3 -/

theorem matches_of_build (k_table : List String) (e : Record)
    (fe : List (String × String)) (h : build_find_entry k_table e = some fe) :
    matches_find_entry fe e = true := by
  induction k_table generalizing fe with
  | nil =>
    simp only [build_find_entry, Option.some.injEq] at h
    subst h
    rfl
  | cons k0 rest ih =>
    cases hl : e.lookup k0 with
    | none => simp [build_find_entry, hl] at h
    | some v =>
      cases hrest : build_find_entry rest e with
      | none => simp [build_find_entry, hl, hrest] at h
      | some l =>
        simp only [build_find_entry, hl, hrest, Option.map_some',
          Option.some.injEq] at h
        subst h
        have htail := ih l hrest
        simp only [matches_find_entry, List.all_cons] at htail ⊢
        simp [hl, htail]

theorem findIdx_none_of_all_false {α : Type} (p : α → Bool) (c : List α)
    (hc : ∀ r ∈ c, p r = false) : c.findIdx? p = none := by
  induction c with
  | nil => rfl
  | cons hd tl ih =>
    have h0 : p hd = false := hc hd (by simp)
    simp [List.findIdx?_cons, h0, ih (fun r hr => hc r (by simp [hr]))]

theorem findIdx_append_singleton {α : Type} (p : α → Bool) (c : List α) (x : α)
    (hc : ∀ r ∈ c, p r = false) (hx : p x = true) :
    (c ++ [x]).findIdx? p = some c.length := by
  induction c with
  | nil => simp [List.findIdx?_cons, hx]
  | cons hd tl ih =>
    have h0 : p hd = false := hc hd (by simp)
    simp [List.findIdx?_cons, h0, ih (fun r hr => hc r (by simp [hr]))]

theorem set_append_singleton {α : Type} (c : List α) (x y : α) :
    (c ++ [x]).set c.length y = c ++ [y] := by
  induction c with
  | nil => rfl
  | cons hd tl ih => simp [List.set, ih]

/-- C3: add_entry is an upsert: starting from a collection holding no record
with the shared natural key of the two entries, adding the first entry
appends it, adding the second entry updates that same record in place, and
the final collection holds exactly one record with that natural key, whose
non-key fields are those of the second entry. -/
theorem C3_add_entry_upsert (k_table : List String) (c : List Record) (e1 e2 : Record)
    (fe : List (String × String))
    (h1 : build_find_entry k_table e1 = some fe)
    (h2 : build_find_entry k_table e2 = some fe)
    (hc : ∀ r ∈ c, matches_find_entry fe r = false) :
    add_entry k_table c e1 = some (c ++ [e1]) ∧
    add_entry k_table (c ++ [e1]) e2 = some (c ++ [e2]) ∧
    (c ++ [e2]).filter (fun r => matches_find_entry fe r) = [e2] := by
  have m1 : matches_find_entry fe e1 = true := matches_of_build k_table e1 fe h1
  have m2 : matches_find_entry fe e2 = true := matches_of_build k_table e2 fe h2
  refine ⟨?_, ?_, ?_⟩
  · unfold add_entry
    rw [h1, Option.map_some']
    rw [findIdx_none_of_all_false _ c hc]
  · unfold add_entry
    rw [h2, Option.map_some']
    rw [findIdx_append_singleton _ c e1 hc m1]
    dsimp only
    rw [set_append_singleton]
  · rw [List.filter_append]
    have hnil : c.filter (fun r => matches_find_entry fe r) = [] := by
      rw [List.filter_eq_nil_iff]
      intro r hr
      simp [hc r hr]
    rw [hnil]
    simp [m2]

theorem C3_add_entry_upsert_witness :
    add_entry ["name"] [] [("name", "a"), ("x", "1")] =
      some [[("name", "a"), ("x", "1")]] ∧
    add_entry ["name"] [[("name", "a"), ("x", "1")]] [("name", "a"), ("x", "2")] =
      some [[("name", "a"), ("x", "2")]] ∧
    ([[("name", "a"), ("x", "2")]] : List Record).filter
      (fun r => matches_find_entry [("name", "a")] r) = [[("name", "a"), ("x", "2")]] := by
  have h := C3_add_entry_upsert ["name"] [] [("name", "a"), ("x", "1")]
    [("name", "a"), ("x", "2")] [("name", "a")] (by rfl) (by rfl) (by simp)
  exact ⟨h.1, h.2.1, h.2.2⟩

/-! ## C4 -/

theorem get_pyIndex_find {α : Type} (f : α → String) (l : List α) (v : String)
    (h : v ∈ l.map f) :
    l.get? (pyIndex (l.map f) v) = l.find? (fun x => f x == v) := by
  induction l with
  | nil => simp at h
  | cons x xs ih =>
    by_cases hx : f x = v
    · have hb : (f x == v) = true := by simpa using hx
      simp [pyIndex, hx, List.find?, hb]
    · have hb : (f x == v) = false := beq_eq_false_iff_ne.mpr hx
      have h2 : v ∈ xs.map f := by
        rcases List.mem_cons.mp h with hv | hv
        · exact absurd hv.symm hx
        · exact hv
      simp only [List.map_cons, pyIndex, hx, if_false, List.find?, hb]
      rw [List.get?_cons_succ, ih h2]

/-- C4: group resolution is strictly outermost-to-innermost with no
backtracking: the levels processed are exactly those strictly preceding the
requested method in the fixed method ordering; at each level the resolver
reads the query parameter (empty string when absent), rejects with the
membership failure through API._match_list when the value is not among the
configured group names at that level, and otherwise descends into the first
group whose name equals the value before processing the next level. -/
theorem C4_group_resolution (GN : String) (params : String → Option String)
    (gm gq : List String) (m : String) (i : Nat) (method query : String)
    (rest : List (String × String)) (conf : ConfigNode) (g : ConfigNode) :
    (gm.indexOf? m = some i →
      find_all_groups gm gq m = (gm.take i).zip (gq.take i)) ∧
    (params query = none → get_query_argument params query "" = "") ∧
    (get_query_argument params query "" ∉
        (conf.getGroups method).map (get_value GN) →
      get_group_dict_loop GN params ((method, query) :: rest) conf =
        .error (api_except (get_query_argument params query "")
          ("one of [" ++ String.intercalate ", "
            ((conf.getGroups method).map (get_value GN)) ++ "]") query)) ∧
    ((conf.getGroups method).find?
        (fun g0 => get_value GN g0 == get_query_argument params query "") = some g →
      get_group_dict_loop GN params ((method, query) :: rest) conf =
        get_group_dict_loop GN params rest g) := by
  refine ⟨?_, ?_, ?_, ?_⟩
  · intro h
    unfold find_all_groups
    rw [h]
  · intro h
    simp [get_query_argument, h]
  · intro h
    have hml : match_list query (get_query_argument params query "")
        ((conf.getGroups method).map (get_value GN)) =
        .error (api_except (get_query_argument params query "")
          ("one of [" ++ String.intercalate ", "
            ((conf.getGroups method).map (get_value GN)) ++ "]") query) := by
      simp [match_list, h]
    unfold get_group_dict_loop
    dsimp only
    rw [hml]
  · intro hfind
    have hp := List.find?_some hfind
    have hmem : g ∈ conf.getGroups method := List.mem_of_find?_eq_some hfind
    have hv : get_value GN g = get_query_argument params query "" := by simpa using hp
    have hin : get_query_argument params query "" ∈
        (conf.getGroups method).map (get_value GN) :=
      List.mem_map.mpr ⟨g, hmem, hv⟩
    have hml : match_list query (get_query_argument params query "")
        ((conf.getGroups method).map (get_value GN)) =
        .ok (get_query_argument params query "") := by
      simp [match_list, hin]
    conv_lhs => rw [get_group_dict_loop]
    rw [hml]
    dsimp only
    rw [get_pyIndex_find (get_value GN) (conf.getGroups method)
      (get_query_argument params query "") hin, hfind]
    simp only [Option.getD_some]

theorem C4_group_resolution_witness :
    find_all_groups ["experiment", "sample"] ["experiment", "sample"] "sample" =
      [("experiment", "experiment")] ∧
    get_group_dict_loop "name" (fun _ => none) [("experiment", "experiment")]
      (ConfigNode.node [] [("experiment", [ConfigNode.node [("name", "A")] []])]) =
      .error (api_except ""
        ("one of [" ++ String.intercalate ", " ["A"] ++ "]") "experiment") ∧
    get_group_dict_loop "name"
      (fun k => if k = "experiment" then some "A" else none) [("experiment", "experiment")]
      (ConfigNode.node [] [("experiment", [ConfigNode.node [("name", "A")] []])]) =
      .ok (ConfigNode.node [("name", "A")] []) := by
  refine ⟨?_, ?_, ?_⟩
  · exact (C4_group_resolution "name" (fun _ => none) ["experiment", "sample"]
      ["experiment", "sample"] "sample" 1 "experiment" "experiment" []
      (ConfigNode.node [] []) (ConfigNode.node [] [])).1 (by rfl)
  · exact (C4_group_resolution "name" (fun _ => none) ["experiment", "sample"]
      ["experiment", "sample"] "sample" 1 "experiment" "experiment" []
      (ConfigNode.node [] [("experiment", [ConfigNode.node [("name", "A")] []])])
      (ConfigNode.node [] [])).2.2.1 (by decide)
  · exact (C4_group_resolution "name"
      (fun k => if k = "experiment" then some "A" else none) ["experiment", "sample"]
      ["experiment", "sample"] "sample" 1 "experiment" "experiment" []
      (ConfigNode.node [] [("experiment", [ConfigNode.node [("name", "A")] []])])
      (ConfigNode.node [("name", "A")] [])).2.2.2 (by rfl)

/-! ## C6 -/

/-- C6: get_path is total: for a channel path registered with add_path it
returns the mapped dataset path, and for an unmapped channel path it returns
that path itself unchanged; as a total function it never fails. -/
theorem C6_get_path_total (db : KVStore) (c d p : String) :
    get_path (add_path db c d) c = d ∧ (db.lookup p = none → get_path db p = p) := by
  constructor
  · simp [get_path, add_path, lookup_kv_set_self]
  · intro h; simp [get_path, h]

theorem C6_get_path_total_witness :
    get_path (add_path [] "chan" "dataset") "chan" = "dataset" ∧
    get_path [] "other" = "other" :=
  ⟨(C6_get_path_total [] "chan" "dataset" "other").1,
   (C6_get_path_total [] "chan" "dataset" "other").2 rfl⟩

/-! ## C10 -/

/-- C10: when a declared natural-key field is missing from the entry dict,
add_entry raises KeyError while building the natural-key lookup, before any
store or update of the collection: the embedded result is none (no updated
collection and no success or failure return), with no conversion of the
exception into a StorageError anywhere in the function. -/
theorem C10_add_entry_key_error (k_table : List String) (collect : List Record)
    (entry : Record) (k : String) (hk : k ∈ k_table) (h : entry.lookup k = none) :
    add_entry k_table collect entry = none := by
  simp [add_entry, build_find_entry_eq_none k_table entry k hk h]

theorem C10_add_entry_key_error_witness :
    add_entry ["name"] [] [("other", "1")] = none :=
  C10_add_entry_key_error ["name"] [] [("other", "1")] "name" (by simp) (by rfl)

/-! ## C5 -/

/-- C5 counterexample: the numeric cast accepts the string -5, which does not
parse as a non-negative integer, and stores its uint32 wraparound; the claim
that every such value is rejected with NotANumber is false. -/
theorem C5_counterexample :
    try_typecast_int "x" "-5" = .ok 4294967291 ∧
    pyParseInt "-5" = some (-5) ∧ ((-5 : Int) < 0) := by
  refine ⟨by rfl, by rfl, by decide⟩

/-- C5 amended: the numeric cast accepts the raw value exactly when it parses
as an integer, storing the cast value modulo 2 ^ 32 rather than the raw
string, and rejects any value that does not parse as an integer with the
NotANumber failure kind carrying the term name and the raw value. -/
theorem C5_int_cast (q s : String) :
    (pyParseInt s = none → try_typecast_int q s = .error (api_except s "a number" q)) ∧
    (∀ z : Int, pyParseInt s = some z →
      try_typecast_int q s = .ok ((z % (2 ^ 32 : Int)).toNat)) ∧
    (∀ (params : String → Option String) (d : String),
      get_int_query params q d = try_typecast_int q (get_query_argument params q d)) := by
  refine ⟨?_, ?_, fun _ _ => rfl⟩
  · intro h; simp [try_typecast_int, npUint32OfString, h]
  · intro z hz; simp [try_typecast_int, npUint32OfString, hz]

theorem C5_int_cast_witness :
    try_typecast_int "mip" "abc" = .error (api_except "abc" "a number" "mip") ∧
    try_typecast_int "mip" "7" = .ok ((7 % (2 ^ 32 : Int)).toNat) :=
  ⟨(C5_int_cast "mip" "abc").1 (by rfl), (C5_int_cast "mip" "7").2.1 7 (by rfl)⟩

/-! ## C7 -/

/-- C7 counterexample: Query construction runs no validation: a Query built
from a method keyword outside the modelled method whitelist holds that raw
value, and its keyword dict stores the raw request strings verbatim. -/
theorem C7_counterexample :
    (Query_init "method" [("method", "bogus")]).methods_value = "bogus" ∧
    METHODS_LIST.contains "bogus" = false ∧
    (Query_init "method" [("method", "bogus")]).keywords = [("method", "bogus")] :=
  ⟨rfl, by decide, rfl⟩

/-- C7 amended: the Query constructor itself validates nothing: __init__
copies the method keyword (empty default) and stores the raw keyword dict
unchanged, and set_key copies whatever keyword value matches the field name
(keeping the field default when absent) without any whitelist or shape
check; validation happens in the AccessLayer before or after construction,
not in the constructor. -/
theorem C7_query_init_stores_raw (name : String) (kw : List (String × String)) (f : Field) :
    (Query_init name kw).methods_value = (kw.lookup name).getD "" ∧
    (Query_init name kw).keywords = kw ∧
    set_key kw f = { NAME := f.NAME, VALUE := (kw.lookup f.NAME).getD f.VALUE } :=
  ⟨rfl, rfl, rfl⟩

/-! ## C8 -/

/-- C8: a request whose method is not in the method whitelist fails through
API._except with the membership failure on the method term (the
UnsupportedMethod kind), and parse never returns a successful dispatch for a
method outside the whitelist. -/
theorem C8_unsupported_method (meths : List String) (META FEAT : String)
    (glist ilist : List String) (request : String) :
    (request ∉ meths →
      parse meths META FEAT glist ilist request =
        .error (api_except request
          ("one of [" ++ String.intercalate ", " meths ++ "]") "method")) ∧
    (∀ r : ParseResult, parse meths META FEAT glist ilist request = .ok r → request ∈ meths) := by
  constructor
  · intro h
    have hif : match_list "method" request meths =
        .error (api_except request
          ("one of [" ++ String.intercalate ", " meths ++ "]") "method") := by
      simp [match_list, h]
    unfold parse
    rw [hif]
    rfl
  · intro r hr
    by_contra h
    have hif : match_list "method" request meths =
        .error (api_except request
          ("one of [" ++ String.intercalate ", " meths ++ "]") "method") := by
      simp [match_list, h]
    unfold parse at hr
    rw [hif] at hr
    exact Except.noConfusion hr

theorem C8_unsupported_method_witness :
    parse ["data"] "meta" "feat" [] ["data"] "bogus" =
      .error (api_except "bogus"
        ("one of [" ++ String.intercalate ", " ["data"] ++ "]") "method") :=
  (C8_unsupported_method ["data"] "meta" "feat" [] ["data"] "bogus").1 (by decide)

/-! ## C1 -/

/-- C1 counterexample: a failing Query validation check is raised with
numeric code 503, not 400, and WebServer.handle writes its bad-request error
body with the transport default success status 200; both contradict the
claim that validation failures always carry 400, that 503 marks only
storage-layer failures, and that no error response has a success status. -/
theorem C1_counterexample :
    check_any false "in [hdf5]" "None" "source" =
      .error { status := "CHECK", code := 503,
               detail := { check := "in [hdf5]", term := "source", out := "None" } } ∧
    (503 : Nat) ≠ 400 ∧
    handle "data" (fun _ => none) (fun _ _ _ _ => CoreResult.keyError) id id =
      { status := 200, content := "Error 400: Bad request<br>Missing query",
        content_type := "text/html" } :=
  ⟨rfl, by decide, rfl⟩

/-- C1 amended: failures raised through API._except carry the numeric code
400 together with the failure kind, the field name and the offending value;
failures raised through the Query check methods are raised with numeric code
503 by raise_error; and every response written by WebServer.handle,
including its error bodies, carries the transport default status 200. -/
theorem C1_error_codes (v checkmsg term : String) (is_good : Bool) (msg val t : String)
    (kind : String) (params : String → Option String)
    (core : String → List Int → List Int → Int → CoreResult) (enc1 enc2 : String → String) :
    (api_except v checkmsg term).code = 400 ∧
    (api_except v checkmsg term).check = checkmsg ∧
    (api_except v checkmsg term).term = term ∧
    (api_except v checkmsg term).val = v ∧
    (is_good = false →
      check_any is_good msg val t =
        .error { status := "CHECK", code := 503,
                 detail := { check := msg, term := t, out := val } }) ∧
    (handle kind params core enc1 enc2).status = 200 := by
  refine ⟨rfl, rfl, rfl, rfl, ?_, ?_⟩
  · rintro rfl; rfl
  · rfl

theorem C1_error_codes_witness :
    (api_except "v" "c" "t").code = 400 ∧
    check_any false "m" "val" "t" =
      .error { status := "CHECK", code := 503,
               detail := { check := "m", term := "t", out := "val" } } ∧
    (handle "zip" (fun _ => none) (fun _ _ _ _ => CoreResult.keyError) id id).status = 200 := by
  have h := C1_error_codes "v" "c" "t" false "m" "val" "t" "zip" (fun _ => none)
    (fun _ _ _ _ => CoreResult.keyError) id id
  exact ⟨h.1, h.2.2.2.2.1 rfl, h.2.2.2.2.2⟩

end Butterfly
